import Mathlib

/-!
Verification of the time-series change-significance evaluator of the
EarthWatch backend (the `/api/ndvi-timeseries` handler in `server.js`).

The handler builds a `timeseries` list of `{date, ndvi_mean}` items,
filters out null values, sorts ascending by date (JavaScript's stable
`Array.prototype.sort` with comparator `new Date(a.date) - new Date(b.date)`),
rejects an empty series with an HTTP 404 error, and otherwise computes

  ndviValues     = timeseries.map(item => item.ndvi_mean).filter(v => v !== null)
  meanNdvi       = ndviValues.length > 0 ? sum/len : 0
  midPoint       = floor(ndviValues.length / 2)
  firstHalf      = ndviValues.slice(0, midPoint)
  secondHalf     = ndviValues.slice(midPoint)
  firstHalfMean  = firstHalf.length > 0 ? sum/len : 0
  secondHalfMean = secondHalf.length > 0 ? sum/len : 0
  changeDetected = |firstHalfMean - secondHalfMean| > 0.1
  confidence     = min(|firstHalfMean - secondHalfMean| * 2, 1)

and responds with a summary record carrying `mean`, `change_detected`,
`confidence`, `total_observations` and the request's `date_range`.

Embedding choices: dates are `Nat` timestamps (the comparator subtracts
epoch milliseconds); index values are exact rationals `ℚ` standing for the
source's IEEE doubles; the source's hard-coded constants `0.1` and `2` are
the spec's `threshold` and `scale_factor` parameters, passed explicitly
and instantiated at the defaults `1/10` and `2` where a claim fixes them.
The stable JavaScript sort is modelled by `List.insertionSort` on the
non-strict date order, which is likewise stable.
-/

/-- One raw observation: an acquisition date (epoch timestamp) and a
nullable index reading, mirroring the `{date, ndvi_mean}` items built by
the handler. -/
structure Sample where
  date : Nat
  value : Option ℚ
deriving DecidableEq, Repr

/-- The sort comparator on samples: ascending by date, mirroring
`(a, b) => new Date(a.date) - new Date(b.date)`. -/
def dateLE (a b : Sample) : Prop := a.date ≤ b.date

instance : DecidableRel dateLE := fun a b => Nat.decLe a.date b.date

instance : IsTotal Sample dateLE := ⟨fun a b => Nat.le_total a.date b.date⟩

instance : IsTrans Sample dateLE := ⟨fun _ _ _ h h' => Nat.le_trans h h'⟩

/-- The normalized series: drop samples whose value is null, then sort
ascending by date, mirroring
`.filter(item => item.ndvi_mean !== null).sort((a,b) => new Date(a.date) - new Date(b.date))`. -/
def timeseries (input : List Sample) : List Sample :=
  List.insertionSort dateLE (input.filter (fun item => item.value.isSome))

/-- The value list used for statistics, mirroring
`timeseries.map(item => item.ndvi_mean).filter(val => val !== null)`
(map to the nullable values, then drop the nulls). -/
def ndviValues (input : List Sample) : List ℚ :=
  ((timeseries input).map (fun item => item.value)).filterMap id

/-- The guarded average pattern `xs.length > 0 ? xs.reduce((a,b) => a+b, ...) / xs.length : 0`
used for `meanNdvi`, `firstHalfMean` and `secondHalfMean`. -/
def meanOrZero (xs : List ℚ) : ℚ :=
  if 0 < xs.length then xs.sum / xs.length else 0

/-- The overall series mean `meanNdvi`. -/
def meanNdvi (input : List Sample) : ℚ :=
  meanOrZero (ndviValues input)

/-- The split index `midPoint = Math.floor(ndviValues.length / 2)`. -/
def midPoint (input : List Sample) : Nat :=
  (ndviValues input).length / 2

/-- The first segment `ndviValues.slice(0, midPoint)`. -/
def firstHalf (input : List Sample) : List ℚ :=
  (ndviValues input).take (midPoint input)

/-- The second segment `ndviValues.slice(midPoint)`. -/
def secondHalf (input : List Sample) : List ℚ :=
  (ndviValues input).drop (midPoint input)

/-- `firstHalfMean = firstHalf.length > 0 ? sum/len : 0`. -/
def firstHalfMean (input : List Sample) : ℚ :=
  meanOrZero (firstHalf input)

/-- `secondHalfMean = secondHalf.length > 0 ? sum/len : 0`. -/
def secondHalfMean (input : List Sample) : ℚ :=
  meanOrZero (secondHalf input)

/-- The subexpression `Math.abs(firstHalfMean - secondHalfMean)` shared by
`changeDetected` and `confidence`; the spec names it `raw_delta`. -/
def rawDelta (input : List Sample) : ℚ :=
  |firstHalfMean input - secondHalfMean input|

/-- `changeDetected = Math.abs(firstHalfMean - secondHalfMean) > 0.1`, with the
hard-coded `0.1` as the `threshold` parameter. -/
def changeDetected (input : List Sample) (threshold : ℚ) : Bool :=
  decide (rawDelta input > threshold)

/-- `confidence = Math.min(Math.abs(firstHalfMean - secondHalfMean) * 2, 1)`,
with the hard-coded `2` as the `scale_factor` parameter. -/
def confidence (input : List Sample) (scale : ℚ) : ℚ :=
  min (rawDelta input * scale) 1

/-- The spec's default `threshold` (the source's hard-coded `0.1`). -/
def defaultThreshold : ℚ := 1 / 10

/-- The spec's default `scale_factor` (the source's hard-coded `2`). -/
def defaultScale : ℚ := 2

/-- The summary record of a successful response: the spec's
`ChangeAssessment`, with `total_observations` playing `sample_count` and
`date_range` the `{start: startDate, end: endDate}` pair of the request. -/
structure Summary where
  mean : ℚ
  change_detected : Bool
  confidence : ℚ
  total_observations : Nat
  date_range : Nat × Nat
deriving DecidableEq, Repr

/-- The failure outcome of an evaluation. The source responds
HTTP 404 `No satellite data found` for an empty normalized series;
the spec calls this `EmptySeriesError`. -/
inductive EvalError where
  | emptySeries
deriving DecidableEq, Repr

deriving instance DecidableEq for Except

/-- The whole evaluation: normalize, reject an empty series, and package
the summary statistics, mirroring the body of the
`/api/ndvi-timeseries` handler after the features arrive.
`startDate` and `endDate` are the request parameters echoed back in
`date_range`. -/
def evaluate (startDate endDate : Nat) (input : List Sample)
    (threshold scale : ℚ) : Except EvalError Summary :=
  if (timeseries input).length = 0 then
    .error .emptySeries
  else
    .ok { mean := meanNdvi input
          change_detected := changeDetected input threshold
          confidence := confidence input scale
          total_observations := (timeseries input).length
          date_range := (startDate, endDate) }

/-- The spec's reading of `date_range` — earliest and latest date of the
normalized series — written from the spec's words, to be compared with
what `evaluate` actually returns. -/
def specDateRange (input : List Sample) : Option Nat × Option Nat :=
  ((timeseries input).head?.map (fun s => s.date),
   (timeseries input).getLast?.map (fun s => s.date))

/-- A successful evaluation pins the summary down to the computed
statistics: the record shape of the `res.json` response. -/
theorem evaluate_ok_shape {s e : Nat} {input : List Sample} {t sc : ℚ} {sm : Summary}
    (h : evaluate s e input t sc = .ok sm) :
    sm = ⟨meanNdvi input, changeDetected input t, confidence input sc,
          (timeseries input).length, (s, e)⟩ := by
  unfold evaluate at h
  split at h
  · exact absurd h (fun hc => Except.noConfusion hc)
  · injection h with h'
    exact h'.symm

example : timeseries [⟨3, some 1⟩, ⟨1, none⟩, ⟨2, some 0⟩]
    = [⟨2, some 0⟩, ⟨3, some 1⟩] := by
  norm_num [timeseries, List.insertionSort, List.orderedInsert, dateLE]

example : evaluate 0 9 [⟨1, some (1/10)⟩, ⟨2, some (1/10)⟩, ⟨3, some (1/2)⟩, ⟨4, some (1/2)⟩]
    (1/10) 2 = .ok ⟨3/10, true, 4/5, 4, (0, 9)⟩ := by
  norm_num [evaluate, timeseries, List.insertionSort, List.orderedInsert, dateLE,
    meanNdvi, ndviValues, meanOrZero, changeDetected, confidence, rawDelta,
    firstHalfMean, secondHalfMean, firstHalf, secondHalf, midPoint, List.filterMap_cons,
    abs_of_nonneg, inf_eq_min, min_def]

example : evaluate 0 0 [⟨1, some (1/2)⟩] (1/10) 2
    = .ok ⟨1/2, true, 1, 1, (0, 0)⟩ := by
  norm_num [evaluate, timeseries, List.insertionSort, List.orderedInsert, dateLE,
    meanNdvi, ndviValues, meanOrZero, changeDetected, confidence, rawDelta,
    firstHalfMean, secondHalfMean, firstHalf, secondHalf, midPoint, List.filterMap_cons,
    abs_of_nonneg, inf_eq_min, min_def]

/-- Claim C1, corrected. The source has no dedicated `n == 1` branch: with a
single valid sample the first segment is empty and its mean falls back to
`0`, so the call indeed does not fail and returns `mean = v` with
`sample_count = 1`, but `change_detected` is `|v| > threshold` (not
unconditionally `false`) and `confidence` is `min(|v| × scale_factor, 1)`
(not `0`). -/
theorem C1_single_sample (s e d : Nat) (v t sc : ℚ) (input : List Sample)
    (h : timeseries input = [⟨d, some v⟩]) :
    evaluate s e input t sc =
      .ok ⟨v, decide (|v| > t), min (|v| * sc) 1, 1, (s, e)⟩ := by
  have hv : ndviValues input = [v] := by
    rw [ndviValues, h]
    rfl
  have habs : |(0:ℚ) - v| = |v| := by
    rw [zero_sub, abs_neg]
  unfold evaluate
  rw [h]
  norm_num [meanNdvi, meanOrZero, hv, changeDetected, confidence, rawDelta,
    firstHalfMean, secondHalfMean, firstHalf, secondHalf, midPoint, habs]

/-- Witness for C1 at the single sample `(date 7, value 0.5)` with the
default parameters. -/
theorem C1_single_sample_witness :
    evaluate 0 0 [⟨7, some (1/2)⟩] defaultThreshold defaultScale =
      .ok ⟨1/2, decide (|(1/2 : ℚ)| > defaultThreshold),
           min (|(1/2 : ℚ)| * defaultScale) 1, 1, (0, 0)⟩ :=
  C1_single_sample 0 0 7 (1/2) defaultThreshold defaultScale _ (by
    norm_num [timeseries, List.insertionSort, List.orderedInsert])

/-- Counterexample to C1 as stated: on the spec's own test input
`[{d1, 0.5}]` with the default parameters, the code reports
`change_detected = true` and `confidence = 1`, not `false` and `0`. -/
theorem C1_counterexample :
    (evaluate 0 0 [⟨1, some (1/2)⟩] defaultThreshold defaultScale).toOption.map
        Summary.change_detected = some true ∧
    (evaluate 0 0 [⟨1, some (1/2)⟩] defaultThreshold defaultScale).toOption.map
        Summary.confidence = some 1 := by
  norm_num [evaluate, timeseries, List.insertionSort, List.orderedInsert, dateLE,
    meanNdvi, ndviValues, meanOrZero, changeDetected, confidence, rawDelta,
    firstHalfMean, secondHalfMean, firstHalf, secondHalf, midPoint, List.filterMap_cons,
    abs_of_nonneg, inf_eq_min, min_def, defaultThreshold, defaultScale, Except.toOption]

/-- Claim C2, confirmed. Whenever the evaluation succeeds (at least one
valid sample), `confidence = min(raw_delta × scale_factor, 1)`; it never
exceeds `1`, and with `scale_factor = 2` any `raw_delta ≥ 1/2` is clamped
to exactly `1`. -/
theorem C2_confidence_clamped (s e : Nat) (input : List Sample) (t sc : ℚ)
    (sm : Summary) (h : evaluate s e input t sc = .ok sm) :
    sm.confidence = min (rawDelta input * sc) 1 ∧
    sm.confidence ≤ 1 ∧
    (sc = 2 → 1/2 ≤ rawDelta input → sm.confidence = 1) := by
  obtain rfl := evaluate_ok_shape h
  refine ⟨rfl, min_le_right _ _, ?_⟩
  rintro rfl hd
  have h1 : (1:ℚ) ≤ rawDelta input * 2 := by linarith
  show min (rawDelta input * 2) 1 = 1
  exact min_eq_right h1

/-- Witness for C2 on the series `[(0, 0.0), (1, 1.0)]`, whose raw delta
is `1 ≥ 1/2`, with the default parameters. -/
theorem C2_confidence_clamped_witness :
    (⟨1/2, true, 1, 2, (0, 9)⟩ : Summary).confidence
        = min (rawDelta [⟨0, some 0⟩, ⟨1, some 1⟩] * 2) 1 ∧
    (⟨1/2, true, 1, 2, (0, 9)⟩ : Summary).confidence ≤ 1 ∧
    ((2:ℚ) = 2 → 1/2 ≤ rawDelta [⟨0, some 0⟩, ⟨1, some 1⟩] →
      (⟨1/2, true, 1, 2, (0, 9)⟩ : Summary).confidence = 1) :=
  C2_confidence_clamped 0 9 _ defaultThreshold 2 _ (by
    norm_num [evaluate, timeseries, List.insertionSort, List.orderedInsert, dateLE,
      meanNdvi, ndviValues, meanOrZero, changeDetected, confidence, rawDelta,
      firstHalfMean, secondHalfMean, firstHalf, secondHalf, midPoint, List.filterMap_cons,
      abs_of_nonneg, abs_of_nonpos, inf_eq_min, min_def, defaultThreshold])

/-- Claim C5, confirmed. When no valid (non-null) sample survives the
filter, the evaluation fails with the empty-series error (the handler's
HTTP 404) and returns no assessment. -/
theorem C5_empty_series (s e : Nat) (input : List Sample) (t sc : ℚ)
    (h : input.filter (fun item => item.value.isSome) = []) :
    evaluate s e input t sc = .error .emptySeries := by
  have hts : timeseries input = [] := by
    rw [timeseries, h]
    rfl
  simp [evaluate, hts]

/-- Witness for C5 on the spec's all-null input `[{d1, null}, {d2, null}]`. -/
theorem C5_empty_series_witness :
    evaluate 0 9 [⟨0, none⟩, ⟨1, none⟩] defaultThreshold defaultScale
      = .error .emptySeries :=
  C5_empty_series 0 9 _ defaultThreshold defaultScale (by rfl)

/-- Claim C3, confirmed. On a successful evaluation of a series with at
least two valid samples, `change_detected` holds exactly when
`raw_delta` strictly exceeds the threshold; equality at the threshold
does not trigger it. -/
theorem C3_threshold_strict (s e : Nat) (input : List Sample) (t sc : ℚ)
    (sm : Summary) (hn : 2 ≤ (ndviValues input).length)
    (h : evaluate s e input t sc = .ok sm) :
    (sm.change_detected = true ↔ rawDelta input > t) ∧
    (rawDelta input = t → sm.change_detected = false) := by
  obtain rfl := evaluate_ok_shape h
  constructor
  · show changeDetected input t = true ↔ rawDelta input > t
    rw [changeDetected, decide_eq_true_eq]
  · intro ht
    show changeDetected input t = false
    rw [changeDetected, ht]
    simp

/-- Witness for C3 on the series `[(0, 0.1), (1, 0.2)]`, whose raw delta
is exactly the default threshold `0.1`: no change is flagged. -/
theorem C3_threshold_strict_witness :
    ((⟨3/20, false, 1/5, 2, (0, 9)⟩ : Summary).change_detected = true ↔
        rawDelta [⟨0, some (1/10)⟩, ⟨1, some (1/5)⟩] > defaultThreshold) ∧
    (rawDelta [⟨0, some (1/10)⟩, ⟨1, some (1/5)⟩] = defaultThreshold →
      (⟨3/20, false, 1/5, 2, (0, 9)⟩ : Summary).change_detected = false) :=
  C3_threshold_strict 0 9 _ defaultThreshold defaultScale _
    (by norm_num [ndviValues, timeseries, List.insertionSort, List.orderedInsert,
      dateLE, List.filterMap_cons])
    (by norm_num [evaluate, timeseries, List.insertionSort, List.orderedInsert, dateLE,
      meanNdvi, ndviValues, meanOrZero, changeDetected, confidence, rawDelta,
      firstHalfMean, secondHalfMean, firstHalf, secondHalf, midPoint, List.filterMap_cons,
      abs_of_nonneg, abs_of_nonpos, inf_eq_min, min_def, defaultThreshold, defaultScale])

/-- Claim C4, confirmed. The series of valid values is split at index
`floor(n/2)`: the two segments partition it, the first has exactly
`floor(n/2)` elements, and for odd `n` the second segment holds the extra
element; on the spec's even-length example `[0.1, 0.1, 0.5, 0.5]` with
the default parameters this yields segment means `0.1` and `0.5`,
`raw_delta = 0.4`, `change_detected = true`, `confidence = 0.8` and
`mean = 0.3`. -/
theorem C4_midpoint_split (input : List Sample) :
    firstHalf input ++ secondHalf input = ndviValues input ∧
    (firstHalf input).length = (ndviValues input).length / 2 ∧
    ((ndviValues input).length % 2 = 1 →
      (secondHalf input).length = (firstHalf input).length + 1) ∧
    evaluate 0 9 [⟨1, some (1/10)⟩, ⟨2, some (1/10)⟩, ⟨3, some (1/2)⟩, ⟨4, some (1/2)⟩]
        defaultThreshold defaultScale = .ok ⟨3/10, true, 4/5, 4, (0, 9)⟩ ∧
    firstHalfMean [⟨1, some (1/10)⟩, ⟨2, some (1/10)⟩, ⟨3, some (1/2)⟩, ⟨4, some (1/2)⟩]
        = 1/10 ∧
    secondHalfMean [⟨1, some (1/10)⟩, ⟨2, some (1/10)⟩, ⟨3, some (1/2)⟩, ⟨4, some (1/2)⟩]
        = 1/2 ∧
    rawDelta [⟨1, some (1/10)⟩, ⟨2, some (1/10)⟩, ⟨3, some (1/2)⟩, ⟨4, some (1/2)⟩]
        = 2/5 := by
  have hlen : (firstHalf input).length = (ndviValues input).length / 2 := by
    rw [firstHalf, List.length_take, midPoint]
    exact Nat.min_eq_left (Nat.div_le_self _ _)
  refine ⟨List.take_append_drop _ _, hlen, ?_, ?_, ?_, ?_, ?_⟩
  · intro hodd
    have hdrop : (secondHalf input).length
        = (ndviValues input).length - (ndviValues input).length / 2 := by
      rw [secondHalf, List.length_drop, midPoint]
    rw [hlen, hdrop]
    omega
  all_goals
    norm_num [evaluate, timeseries, List.insertionSort, List.orderedInsert, dateLE,
      meanNdvi, ndviValues, meanOrZero, changeDetected, confidence, rawDelta,
      firstHalfMean, secondHalfMean, firstHalf, secondHalf, midPoint, List.filterMap_cons,
      abs_of_nonneg, abs_of_nonpos, inf_eq_min, min_def, defaultThreshold, defaultScale]

/-- Witness for C4 at an odd-length series of three valid samples: the
second segment gets the extra element. -/
theorem C4_midpoint_split_witness :
    (secondHalf [⟨1, some 0⟩, ⟨2, some 0⟩, ⟨3, some 0⟩]).length
      = (firstHalf [⟨1, some 0⟩, ⟨2, some 0⟩, ⟨3, some 0⟩]).length + 1 :=
  (C4_midpoint_split [⟨1, some 0⟩, ⟨2, some 0⟩, ⟨3, some 0⟩]).2.2.1 (by
    norm_num [ndviValues, timeseries, List.insertionSort, List.orderedInsert,
      dateLE, List.filterMap_cons])

/-- Claim C6, corrected. Normalization never merges samples: it only
filters nulls and sorts, so the normalized series is a permutation of the
valid input samples and in particular has the same length — duplicate
dates are kept as separate samples, not averaged. -/
theorem C6_no_duplicate_merging (input : List Sample) :
    (timeseries input).Perm (input.filter (fun item => item.value.isSome)) ∧
    (timeseries input).length
      = (input.filter (fun item => item.value.isSome)).length :=
  ⟨List.perm_insertionSort _ _, (List.perm_insertionSort _ _).length_eq⟩

/-- Counterexample to C6 as stated: two samples with the same date `7` and
values `0.2` and `0.4` are both kept verbatim; the normalized series has
two samples, not one averaged sample of `0.3`. -/
theorem C6_counterexample :
    timeseries [⟨7, some (1/5)⟩, ⟨7, some (2/5)⟩]
      = [⟨7, some (1/5)⟩, ⟨7, some (2/5)⟩] ∧
    (timeseries [⟨7, some (1/5)⟩, ⟨7, some (2/5)⟩]).length ≠ 1 := by
  norm_num [timeseries, List.insertionSort, List.orderedInsert, dateLE]

/-- Claim C7, corrected. On a successful evaluation `sample_count`
(`total_observations`) is indeed the number of valid samples used, but
`date_range` is the caller's request window `(startDate, endDate)`, not
the earliest/latest sample date of the normalized series. -/
theorem C7_date_range_request (s e : Nat) (input : List Sample) (t sc : ℚ)
    (sm : Summary) (h : evaluate s e input t sc = .ok sm) :
    sm.date_range = (s, e) ∧
    sm.total_observations
      = (input.filter (fun item => item.value.isSome)).length := by
  obtain rfl := evaluate_ok_shape h
  exact ⟨rfl, (List.perm_insertionSort _ _).length_eq⟩

/-- Witness for C7 on the series with sample dates `10` and `20` queried
over the request window `(0, 100)`. -/
theorem C7_date_range_request_witness :
    (⟨0, false, 0, 2, (0, 100)⟩ : Summary).date_range = (0, 100) ∧
    (⟨0, false, 0, 2, (0, 100)⟩ : Summary).total_observations
      = (([⟨10, some 0⟩, ⟨20, some 0⟩] : List Sample).filter
          (fun item => item.value.isSome)).length :=
  C7_date_range_request 0 100 _ defaultThreshold defaultScale _ (by
    norm_num [evaluate, timeseries, List.insertionSort, List.orderedInsert, dateLE,
      meanNdvi, ndviValues, meanOrZero, changeDetected, confidence, rawDelta,
      firstHalfMean, secondHalfMean, firstHalf, secondHalf, midPoint, List.filterMap_cons,
      abs_of_nonneg, abs_of_nonpos, inf_eq_min, min_def, defaultThreshold, defaultScale])

/-- Counterexample to C7 as stated: with sample dates `10` and `20` inside
the request window `(0, 100)`, the response's `date_range` is `(0, 100)`
while the earliest/latest dates of the normalized series are `10` and
`20`. -/
theorem C7_counterexample :
    (evaluate 0 100 [⟨10, some 0⟩, ⟨20, some 0⟩] defaultThreshold
        defaultScale).toOption.map Summary.date_range = some (0, 100) ∧
    specDateRange [⟨10, some 0⟩, ⟨20, some 0⟩] = (some 10, some 20) ∧
    ((0 : Nat), (100 : Nat)) ≠ ((10 : Nat), (20 : Nat)) := by
  refine ⟨rfl, rfl, by simp⟩

/-- Two sorted permutations of each other whose dates are pairwise
distinct are equal: once no two samples share a date, sorting by date
alone determines the order. -/
theorem sorted_perm_distinct_eq : ∀ {l₁ l₂ : List Sample}, l₁.Perm l₂ →
    l₁.Sorted dateLE → l₂.Sorted dateLE →
    l₁.Pairwise (fun a b => a.date ≠ b.date) → l₁ = l₂ := by
  intro l₁
  induction l₁ with
  | nil =>
    intro l₂ hp _ _ _
    exact hp.nil_eq
  | cons a t ih =>
    intro l₂ hp hs₁ hs₂ hd
    cases l₂ with
    | nil => exact absurd hp.eq_nil (by simp)
    | cons b t₂ =>
      obtain ⟨hs1a, hs1t⟩ := List.sorted_cons.mp hs₁
      obtain ⟨hs2b, hs2t⟩ := List.sorted_cons.mp hs₂
      obtain ⟨hda, hdt⟩ := List.pairwise_cons.mp hd
      have hab : a = b := by
        have hbmem : b ∈ a :: t := hp.symm.subset (List.mem_cons_self b t₂)
        rcases List.mem_cons.mp hbmem with hb | hb
        · exact hb.symm
        · have hamem : a ∈ b :: t₂ := hp.subset (List.mem_cons_self a t)
          rcases List.mem_cons.mp hamem with ha | ha
          · exact ha
          · have h1 : a.date ≤ b.date := hs1a b hb
            have h2 : b.date ≤ a.date := hs2b a ha
            exact absurd (Nat.le_antisymm h1 h2) (hda b hb)
      subst hab
      have hp' : t.Perm t₂ := hp.cons_inv
      rw [ih hp' hs1t hs2t hdt]

/-- Permuting an input whose dates are pairwise distinct does not change
its normalized series. -/
theorem timeseries_perm_invariant {S T : List Sample} (hp : S.Perm T)
    (hd : S.Pairwise (fun a b => a.date ≠ b.date)) :
    timeseries S = timeseries T := by
  have hpf := hp.filter (fun item => item.value.isSome)
  have hperm : (timeseries S).Perm (timeseries T) :=
    (List.perm_insertionSort _ _).trans
      (hpf.trans (List.perm_insertionSort _ _).symm)
  have hfd : (S.filter (fun item => item.value.isSome)).Pairwise
      (fun a b => a.date ≠ b.date) :=
    List.Pairwise.sublist (List.filter_sublist _) hd
  have hdS : (timeseries S).Pairwise (fun a b => a.date ≠ b.date) :=
    (@List.Perm.pairwise_iff Sample (fun a b => a.date ≠ b.date)
      (fun h => Ne.symm h) _ _ (List.perm_insertionSort dateLE _)).mpr hfd
  exact sorted_perm_distinct_eq hperm (List.sorted_insertionSort _ _)
    (List.sorted_insertionSort _ _) hdS

/-- Claim C8, corrected under the proviso that the sample dates are
pairwise distinct: then any permutation of the input evaluates to the
same result, because normalization sorts by date first. With duplicate
dates the stable sort preserves the input order of the tied samples and
the result can depend on it (see the counterexample). -/
theorem C8_order_independence (S T : List Sample) (s e : Nat) (t sc : ℚ)
    (hp : S.Perm T) (hd : S.Pairwise (fun a b => a.date ≠ b.date)) :
    evaluate s e S t sc = evaluate s e T t sc := by
  have hts := timeseries_perm_invariant hp hd
  simp only [evaluate, meanNdvi, changeDetected, confidence, rawDelta,
    firstHalfMean, secondHalfMean, firstHalf, secondHalf, midPoint,
    ndviValues, hts]

/-- Witness for C8 on a two-sample series with distinct dates, presented
in the two possible orders. -/
theorem C8_order_independence_witness :
    evaluate 0 9 [⟨2, some 1⟩, ⟨1, some 0⟩] defaultThreshold defaultScale =
      evaluate 0 9 [⟨1, some 0⟩, ⟨2, some 1⟩] defaultThreshold defaultScale :=
  C8_order_independence _ _ 0 9 defaultThreshold defaultScale
    (List.Perm.swap (⟨1, some 0⟩ : Sample) ⟨2, some 1⟩ [])
    (by simp [List.pairwise_cons])

/-- Counterexample to C8 as stated: two permutations of the same samples
with a duplicated date evaluate to different results (confidence `2/5`
versus `1`), because the stable sort keeps tied samples in input order. -/
theorem C8_counterexample :
    ([⟨1, some (1/5)⟩, ⟨1, some (4/5)⟩, ⟨2, some 0⟩] : List Sample).Perm
        [⟨1, some (4/5)⟩, ⟨1, some (1/5)⟩, ⟨2, some 0⟩] ∧
    evaluate 0 9 [⟨1, some (1/5)⟩, ⟨1, some (4/5)⟩, ⟨2, some 0⟩]
        defaultThreshold defaultScale ≠
      evaluate 0 9 [⟨1, some (4/5)⟩, ⟨1, some (1/5)⟩, ⟨2, some 0⟩]
        defaultThreshold defaultScale := by
  constructor
  · exact List.Perm.swap (⟨1, some (4/5)⟩ : Sample) ⟨1, some (1/5)⟩ [⟨2, some 0⟩]
  · have hA : (evaluate 0 9 [⟨1, some (1/5)⟩, ⟨1, some (4/5)⟩, ⟨2, some 0⟩]
        defaultThreshold defaultScale).toOption.map Summary.confidence
        = some (2/5) := by
      norm_num [evaluate, timeseries, List.insertionSort, List.orderedInsert, dateLE,
        meanNdvi, ndviValues, meanOrZero, changeDetected, confidence, rawDelta,
        firstHalfMean, secondHalfMean, firstHalf, secondHalf, midPoint,
        List.filterMap_cons, abs_of_nonneg, abs_of_nonpos, inf_eq_min, min_def,
        defaultThreshold, defaultScale, Except.toOption]
    have hB : (evaluate 0 9 [⟨1, some (4/5)⟩, ⟨1, some (1/5)⟩, ⟨2, some 0⟩]
        defaultThreshold defaultScale).toOption.map Summary.confidence
        = some 1 := by
      norm_num [evaluate, timeseries, List.insertionSort, List.orderedInsert, dateLE,
        meanNdvi, ndviValues, meanOrZero, changeDetected, confidence, rawDelta,
        firstHalfMean, secondHalfMean, firstHalf, secondHalf, midPoint,
        List.filterMap_cons, abs_of_nonneg, abs_of_nonpos, inf_eq_min, min_def,
        defaultThreshold, defaultScale, Except.toOption]
    intro h
    rw [h, hB] at hA
    norm_num at hA

/-- Claim C9, confirmed. Under the default parameters both outputs are
functions of the same raw delta, so on every successful evaluation the
change flag holds exactly when the confidence strictly exceeds `0.2`. -/
theorem C9_flag_iff_confidence (s e : Nat) (input : List Sample)
    (sm : Summary)
    (h : evaluate s e input defaultThreshold defaultScale = .ok sm) :
    (sm.change_detected = true ↔ sm.confidence > 1/5) := by
  obtain rfl := evaluate_ok_shape h
  show changeDetected input defaultThreshold = true ↔
    confidence input defaultScale > 1/5
  rw [changeDetected, decide_eq_true_eq, confidence, defaultThreshold,
    defaultScale]
  constructor
  · intro hd
    exact lt_min (by linarith) (by norm_num)
  · intro hc
    have h2 : (1:ℚ)/5 < rawDelta input * 2 :=
      lt_of_lt_of_le hc (min_le_left _ _)
    linarith

/-- Witness for C9 on the series `[(0, 0.0), (1, 1.0)]` under the default
parameters: the change flag is set and the confidence is `1 > 0.2`. -/
theorem C9_flag_iff_confidence_witness :
    ((⟨1/2, true, 1, 2, (0, 7)⟩ : Summary).change_detected = true ↔
      (⟨1/2, true, 1, 2, (0, 7)⟩ : Summary).confidence > 1/5) :=
  C9_flag_iff_confidence 0 7 [⟨0, some 0⟩, ⟨1, some 1⟩] _ (by
    norm_num [evaluate, timeseries, List.insertionSort, List.orderedInsert, dateLE,
      meanNdvi, ndviValues, meanOrZero, changeDetected, confidence, rawDelta,
      firstHalfMean, secondHalfMean, firstHalf, secondHalf, midPoint,
      List.filterMap_cons, abs_of_nonneg, abs_of_nonpos, inf_eq_min, min_def,
      defaultThreshold, defaultScale])

/-- Claim C10, confirmed. For a series with at least one valid sample,
the first segment is empty exactly when there is a single valid sample,
the second segment is never empty, and an empty first segment contributes
mean `0`, so the change test compares `|0 - second_segment_mean|` with
the threshold and the computation stays total. -/
theorem C10_empty_segment_mean_zero (input : List Sample) (t : ℚ)
    (hn : 1 ≤ (ndviValues input).length) :
    (firstHalf input = [] ↔ (ndviValues input).length = 1) ∧
    secondHalf input ≠ [] ∧
    (firstHalf input = [] →
      firstHalfMean input = 0 ∧
      changeDetected input t = decide (|0 - secondHalfMean input| > t)) := by
  refine ⟨?_, ?_, ?_⟩
  · rw [← List.length_eq_zero, firstHalf, List.length_take, midPoint]
    omega
  · have hpos : 0 < (secondHalf input).length := by
      rw [secondHalf, List.length_drop, midPoint]
      omega
    exact List.length_pos.mp hpos
  · intro h0
    have hm : firstHalfMean input = 0 := by
      rw [firstHalfMean, h0]
      rfl
    refine ⟨hm, ?_⟩
    rw [changeDetected, rawDelta, hm]

/-- Witness for C10 at the single-sample series `[(0, 0.5)]` with the
default threshold. -/
theorem C10_empty_segment_mean_zero_witness :
    (firstHalf [⟨0, some (1/2)⟩] = [] ↔
        (ndviValues [⟨0, some (1/2)⟩]).length = 1) ∧
    secondHalf [⟨0, some (1/2)⟩] ≠ [] ∧
    (firstHalf [⟨0, some (1/2)⟩] = [] →
      firstHalfMean [⟨0, some (1/2)⟩] = 0 ∧
      changeDetected [⟨0, some (1/2)⟩] defaultThreshold
        = decide (|0 - secondHalfMean [⟨0, some (1/2)⟩]| > defaultThreshold)) :=
  C10_empty_segment_mean_zero [⟨0, some (1/2)⟩] defaultThreshold (by
    norm_num [ndviValues, timeseries, List.insertionSort, List.orderedInsert,
      List.filterMap_cons])
